import Mathlib

/-!
# Service discovery registry over etcd

A shallow embedding of `discovery/etcd/etcd.go`.  The registry is a Go struct
mutated through pointer receivers; here every method takes the registry value
and the state of the outside world and returns the new ones.

The etcd client, the endpoint manager and the gRPC dialer are libraries outside
the repository.  Their answers are left arbitrary: an `Env` gives, for every
library call, the answer as a function of everything that happened so far.
Every library call is appended to `World.calls`, oldest first, so that a
statement about which requests a method issues is a statement about that list.
The coordination store is a finite map from keys to endpoint records: a
successful `AddEndpoint` puts the key, a successful `DeleteEndpoint` removes it.
Lease expiry, watches and the keepalive stream itself are timed, concurrent
behaviour of the store and are not part of the model.  `context.Context`
arguments carry no data the methods read and are left out.
-/

namespace Discovery

/-! ## Handles of library values -/

/-- Handle of a `*clientv3.Client`. -/
structure Client where
  id : Nat
deriving DecidableEq

/-- Handle of a `gresolver.Builder`. -/
structure Resolver where
  id : Nat
deriving DecidableEq

/-- Handle of an `endpoints.Manager`. -/
structure Manager where
  id : Nat
deriving DecidableEq

/-- Handle of a `*grpc.ClientConn`. -/
structure Conn where
  id : Nat
deriving DecidableEq

/-- Handle of a `grpc.DialOption`. -/
structure DialOption where
  id : Nat
deriving DecidableEq

/-- The type `clientv3.LeaseID`, an `int64`; no arithmetic is done on it. -/
abbrev LeaseID := Int

/-- The record `endpoints.Endpoint`; the code sets only `Addr`. -/
structure Endpoint where
  Addr : String
deriving DecidableEq

/-- A Go `error` value: one built by `fmt.Errorf` in this file, or one handed
back by a library call. -/
inductive Err where
  | errorf (msg : String)
  | external (code : Nat)
deriving DecidableEq

/-- How a method call ends: a value with a nil error, a non-nil error, or a
run-time panic (a method called through a nil `*clientv3.Client`). -/
inductive Outcome (α : Type) where
  | ok (v : α)
  | error (e : Err)
  | panic
deriving DecidableEq

/-! ## The outside world -/

/-- A call into a library.  `Revoke` belongs to the lease interface of the
store client and is listed so that a trace can be checked for its absence. -/
inductive Call where
  | ClientNew (endpoints : List String) (dialTimeoutSec : Nat)
  | NewBuilder (client : Client)
  | DialContext (target : String) (opts : List DialOption)
  | ConnClose (conn : Conn)
  | NewManager (client : Option Client) (target : String)
  | Grant (client : Client) (ttl : Int)
  | AddEndpoint (em : Manager) (key : String) (endpoint : Endpoint) (lease : LeaseID)
  | KeepAlive (client : Client) (id : LeaseID)
  | DeleteEndpoint (em : Manager) (key : String)
  | Revoke (client : Client) (id : LeaseID)
  | ClientClose (client : Client)
deriving DecidableEq

/-- What the store holds under a key: the endpoint and the lease it hangs on. -/
structure StoreEntry where
  endpoint : Endpoint
  lease : LeaseID
deriving DecidableEq

/-- The coordination store as a finite map, kept as an association list with
at most one pair per key. -/
structure Store where
  entries : List (String × StoreEntry)
deriving DecidableEq

/-- The entry stored under a key, if any. -/
def Store.get (s : Store) (k : String) : Option StoreEntry :=
  (s.entries.find? (fun kv => decide (kv.1 = k))).map Prod.snd

/-- Remove a key. -/
def Store.delete (s : Store) (k : String) : Store :=
  ⟨s.entries.filter (fun kv => decide (kv.1 ≠ k))⟩

/-- Write a key, replacing what was there. -/
def Store.put (s : Store) (k : String) (v : StoreEntry) : Store :=
  ⟨(k, v) :: (s.delete k).entries⟩

/-- The outside world: the store and the calls made so far, oldest first. -/
structure World where
  store : Store
  calls : List Call
deriving DecidableEq

/-- Append a call to the trace. -/
def World.log (w : World) (c : Call) : World :=
  { w with calls := w.calls ++ [c] }

/-- The answers of the libraries.  Each may depend on the whole world at the
moment of the call.  `none` stands for a nil `error`.  The errors of
`conn.Close()` and `client.Close()` are dropped by the code and have no entry. -/
structure Env where
  clientNew : World → List String → Nat → Except Err Client
  newBuilder : World → Client → Except Err Resolver
  dialContext : World → String → List DialOption → Except Err Conn
  newManager : World → Option Client → String → Except Err Manager
  grant : World → Client → Int → Except Err LeaseID
  addEndpoint : World → Manager → String → Endpoint → LeaseID → Option Err
  keepAlive : World → Client → LeaseID → Option Err
  deleteEndpoint : World → Manager → String → Option Err

/-! ## The registry -/

/-- The struct `SvcDiscoveryRegistryImpl`.  Pointer and interface fields are
options, `none` being nil. -/
structure SvcDiscoveryRegistryImpl where
  client : Option Client
  resolver : Option Resolver
  dialOptions : List DialOption
  serviceKey : String
  endpointMgr : Option Manager
  leaseID : LeaseID
  schema : String
deriving DecidableEq

/-- What a method leaves behind: its return value, the registry and the world. -/
structure Ret (α : Type) where
  result : α
  registry : SvcDiscoveryRegistryImpl
  world : World

/-- The registry and the world a method call leaves. -/
def Ret.state {α : Type} (x : Ret α) : SvcDiscoveryRegistryImpl × World :=
  (x.registry, x.world)

/-- The verb `%d` of `fmt.Sprintf` at a Go `int`: the decimal digits, after a
minus sign when the number is negative.  The argument ranges over all integers,
which covers the 64-bit range of a Go `int`. -/
def fmtD : Int → String
  | Int.ofNat n => String.mk (Nat.toDigits 10 n)
  | Int.negSucc n => String.mk ('-' :: Nat.toDigits 10 (n + 1))

/-- The store key of an instance: `fmt.Sprintf("%s/%s:%d", serviceName, host, port)`. -/
def serviceKeyOf (serviceName host : String) (port : Int) : String :=
  serviceName ++ "/" ++ host ++ ":" ++ fmtD port

/-- The endpoint address: `fmt.Sprintf("%s:%d", host, port)`. -/
def addrOf (host : String) (port : Int) : String :=
  host ++ ":" ++ fmtD port

/-- The dial target: `fmt.Sprintf("%s:///%s", schema, name)`. -/
def targetOf (schema name : String) : String :=
  schema ++ ":///" ++ name

/-- The constructor `NewSvcDiscoveryRegistry`: a store client with a dial
timeout of 5 seconds, then a resolver builder on it; the other fields take
their zero values. -/
def NewSvcDiscoveryRegistry (env : Env) (w : World) (schema : String)
    (endpoints : List String) : Outcome SvcDiscoveryRegistryImpl × World :=
  let w1 := w.log (Call.ClientNew endpoints 5)
  match env.clientNew w endpoints 5 with
  | Except.error e => (Outcome.error e, w1)
  | Except.ok client =>
    let w2 := w1.log (Call.NewBuilder client)
    match env.newBuilder w1 client with
    | Except.error e => (Outcome.error e, w2)
    | Except.ok b =>
      (Outcome.ok
        { client := some client, resolver := some b, dialOptions := [],
          serviceKey := "", endpointMgr := none, leaseID := 0, schema := schema },
       w2)

/-- The method `GetConns`: one dial, wrapped in a one-element slice. -/
def GetConns (env : Env) (r : SvcDiscoveryRegistryImpl) (w : World)
    (serviceName : String) (opts : List DialOption) : Ret (Outcome (List Conn)) :=
  let target := targetOf r.schema serviceName
  let w1 := w.log (Call.DialContext target (r.dialOptions ++ opts))
  match env.dialContext w target (r.dialOptions ++ opts) with
  | Except.error e => ⟨Outcome.error e, r, w1⟩
  | Except.ok conn => ⟨Outcome.ok [conn], r, w1⟩

/-- The method `GetConn`: hands back what the dial returns. -/
def GetConn (env : Env) (r : SvcDiscoveryRegistryImpl) (w : World)
    (serviceName : String) (opts : List DialOption) : Ret (Outcome Conn) :=
  let target := targetOf r.schema serviceName
  let w1 := w.log (Call.DialContext target (r.dialOptions ++ opts))
  match env.dialContext w target (r.dialOptions ++ opts) with
  | Except.error e => ⟨Outcome.error e, r, w1⟩
  | Except.ok conn => ⟨Outcome.ok conn, r, w1⟩

/-- The method `GetSelfConnTarget`. -/
def GetSelfConnTarget (r : SvcDiscoveryRegistryImpl) (w : World) : Ret String :=
  ⟨targetOf r.schema r.serviceKey, r, w⟩

/-- The method `AddOption`. -/
def AddOption (r : SvcDiscoveryRegistryImpl) (w : World) (opts : List DialOption) :
    Ret Unit :=
  ⟨(), { r with dialOptions := r.dialOptions ++ opts }, w⟩

/-- The method `CloseConn`: closes the connection, taken non-nil; an error is
only printed. -/
def CloseConn (r : SvcDiscoveryRegistryImpl) (w : World) (conn : Conn) : Ret Unit :=
  ⟨(), r, w.log (Call.ConnClose conn)⟩

/-- The method `Register`.  The fields are assigned as the steps go, and an
error returns at once with what has been assigned so far. -/
def Register (env : Env) (r : SvcDiscoveryRegistryImpl) (w : World)
    (serviceName host : String) (port : Int) (_opts : List DialOption) :
    Ret (Outcome Unit) :=
  let r1 := { r with serviceKey := serviceKeyOf serviceName host port }
  let w1 := w.log (Call.NewManager r1.client serviceName)
  match env.newManager w r1.client serviceName with
  | Except.error e => ⟨Outcome.error e, r1, w1⟩
  | Except.ok em =>
    let r2 := { r1 with endpointMgr := some em }
    match r2.client with
    | none => ⟨Outcome.panic, r2, w1⟩
    | some client =>
      let w2 := w1.log (Call.Grant client 5)
      match env.grant w1 client 5 with
      | Except.error e => ⟨Outcome.error e, r2, w2⟩
      | Except.ok leaseRespID =>
        let r3 := { r2 with leaseID := leaseRespID }
        let endpoint : Endpoint := { Addr := addrOf host port }
        let w3 := w2.log (Call.AddEndpoint em r3.serviceKey endpoint leaseRespID)
        match env.addEndpoint w2 em r3.serviceKey endpoint leaseRespID with
        | some e => ⟨Outcome.error e, r3, w3⟩
        | none =>
          let w4 : World :=
            { w3 with store := w3.store.put r3.serviceKey ⟨endpoint, leaseRespID⟩ }
          let w5 := w4.log (Call.KeepAlive client r3.leaseID)
          match env.keepAlive w4 client r3.leaseID with
          | some e => ⟨Outcome.error e, r3, w5⟩
          | none => ⟨Outcome.ok (), r3, w5⟩

/-- The method `UnRegister`. -/
def UnRegister (env : Env) (r : SvcDiscoveryRegistryImpl) (w : World) :
    Ret (Outcome Unit) :=
  match r.endpointMgr with
  | none => ⟨Outcome.error (Err.errorf "endpoint manager is not initialized"), r, w⟩
  | some em =>
    let w1 := w.log (Call.DeleteEndpoint em r.serviceKey)
    match env.deleteEndpoint w em r.serviceKey with
    | some e => ⟨Outcome.error e, r, w1⟩
    | none => ⟨Outcome.ok (), r, { w1 with store := w1.store.delete r.serviceKey }⟩

/-- The method `Close`: closes the store client when there is one and drops
the error. -/
def Close (r : SvcDiscoveryRegistryImpl) (w : World) : Ret Unit :=
  match r.client with
  | none => ⟨(), r, w⟩
  | some client => ⟨(), r, w.log (Call.ClientClose client)⟩

/-! ## Runs of method calls -/

/-- A method call on the registry together with its arguments. -/
inductive Op where
  | GetConns (serviceName : String) (opts : List DialOption)
  | GetConn (serviceName : String) (opts : List DialOption)
  | GetSelfConnTarget
  | AddOption (opts : List DialOption)
  | CloseConn (conn : Conn)
  | Register (serviceName host : String) (port : Int) (opts : List DialOption)
  | UnRegister
  | Close
deriving DecidableEq

/-- Whether the call is a `Register`. -/
def Op.isRegister : Op → Bool
  | Op.Register _ _ _ _ => true
  | _ => false

/-- Whether the call is an `UnRegister`. -/
def Op.isUnRegister : Op → Bool
  | Op.UnRegister => true
  | _ => false

/-- One method call: the registry and the world it leaves. -/
def step (env : Env) (s : SvcDiscoveryRegistryImpl × World) (op : Op) :
    SvcDiscoveryRegistryImpl × World :=
  match op with
  | Op.GetConns sn o => (GetConns env s.1 s.2 sn o).state
  | Op.GetConn sn o => (GetConn env s.1 s.2 sn o).state
  | Op.GetSelfConnTarget => (GetSelfConnTarget s.1 s.2).state
  | Op.AddOption o => (AddOption s.1 s.2 o).state
  | Op.CloseConn c => (CloseConn s.1 s.2 c).state
  | Op.Register sn h p o => (Register env s.1 s.2 sn h p o).state
  | Op.UnRegister => (UnRegister env s.1 s.2).state
  | Op.Close => (Close s.1 s.2).state

/-- A sequence of method calls, one after the other. -/
def run (env : Env) : SvcDiscoveryRegistryImpl × World → List Op →
    SvcDiscoveryRegistryImpl × World
  | s, [] => s
  | s, op :: ops => run env (step env s op) ops

/-- Whether every `Register` of the run stops at `endpoints.NewManager`, that
call answering an error each time. -/
def noManagerCreated (env : Env) : SvcDiscoveryRegistryImpl × World → List Op → Bool
  | _, [] => true
  | s, op :: ops =>
    (match op with
      | Op.Register sn _ _ _ =>
        (match env.newManager s.2 s.1.client sn with
          | Except.error _ => true
          | Except.ok _ => false)
      | _ => true) && noManagerCreated env (step env s op) ops

/-! ## Concrete libraries and states, for evaluation -/

/-- A world in which nothing has happened yet. -/
def emptyWorld : World := ⟨⟨[]⟩, []⟩

/-- Libraries that always succeed.  Managers, leases and connections are
numbered by the length of the trace at the call; `endpoints.NewManager`
refuses a nil client. -/
def envUp : Env where
  clientNew := fun _ _ _ => Except.ok ⟨1⟩
  newBuilder := fun _ _ => Except.ok ⟨1⟩
  dialContext := fun w _ _ => Except.ok ⟨w.calls.length⟩
  newManager := fun w c _ =>
    match c with
    | none => Except.error (Err.external 0)
    | some _ => Except.ok ⟨w.calls.length⟩
  grant := fun w _ _ => Except.ok (Int.ofNat w.calls.length)
  addEndpoint := fun _ _ _ _ _ => none
  keepAlive := fun _ _ _ => none
  deleteEndpoint := fun _ _ _ => none

/-- Libraries in which every lease grant is refused. -/
def envGrantDown : Env :=
  { envUp with grant := fun _ _ _ => Except.error (Err.external 1) }

/-- Libraries in which no endpoint manager can be made. -/
def envManagerDown : Env :=
  { envUp with newManager := fun _ _ _ => Except.error (Err.external 2) }

/-- The registry that `NewSvcDiscoveryRegistry "openim"` returns under `envUp`. -/
def openedRegistry : SvcDiscoveryRegistryImpl :=
  { client := some ⟨1⟩, resolver := some ⟨1⟩, dialOptions := [], serviceKey := "",
    endpointMgr := none, leaseID := 0, schema := "openim" }

/-- The world after that constructor call. -/
def openedWorld : World :=
  ⟨⟨[]⟩, [Call.ClientNew ["http://localhost:2379"] 5, Call.NewBuilder ⟨1⟩]⟩

/-- The state after a successful `Register` of `echo` at `127.0.0.1:9000`
followed by a dial and an added option. -/
def registeredState : SvcDiscoveryRegistryImpl × World :=
  run envUp (Register envUp openedRegistry openedWorld "echo" "127.0.0.1" 9000 []).state
    [Op.GetConn "echo" [], Op.AddOption [⟨7⟩]]

/-- The state after a second successful `Register`, of `echo` at
`127.0.0.1:9001`, followed by a dial. -/
def reRegisteredState : SvcDiscoveryRegistryImpl × World :=
  run envUp (Register envUp registeredState.1 registeredState.2 "echo" "127.0.0.1" 9001 []).state
    [Op.GetConns "echo" []]

/-- Libraries whose store client refuses lease grants and keepalives once
`Close` has been called on it; everything else answers as in `envUp`. -/
def envCloseable : Env :=
  { envUp with
    grant := fun w c _ =>
      if Call.ClientClose c ∈ w.calls then Except.error (Err.external 3)
      else Except.ok (Int.ofNat w.calls.length)
    keepAlive := fun w c _ =>
      if Call.ClientClose c ∈ w.calls then some (Err.external 3) else none }

/-! ## Reading decimal digits back -/

/-- The value of a decimal digit character. -/
def digitVal (c : Char) : Nat := c.toNat - 48

/-- Read decimal digits, most significant first, on top of `acc`. -/
def readDigits (acc : Nat) (l : List Char) : Nat :=
  l.foldl (fun a c => 10 * a + digitVal c) acc

/-! ## Evaluation on the concrete states -/

theorem NewSvcDiscoveryRegistry_opened :
    NewSvcDiscoveryRegistry envUp emptyWorld "openim" ["http://localhost:2379"]
      = (Outcome.ok openedRegistry, openedWorld) := by
  decide

theorem serviceKeyOf_example : serviceKeyOf "echo" "127.0.0.1" 9000 = "echo/127.0.0.1:9000" := by
  decide

theorem Register_example :
    (Register envUp openedRegistry openedWorld "echo" "127.0.0.1" 9000 []).result = Outcome.ok () ∧
    (Register envUp openedRegistry openedWorld "echo" "127.0.0.1" 9000 []).registry =
      { openedRegistry with
        serviceKey := "echo/127.0.0.1:9000", endpointMgr := some ⟨2⟩, leaseID := 3 } ∧
    (Register envUp openedRegistry openedWorld "echo" "127.0.0.1" 9000 []).world =
      ⟨⟨[("echo/127.0.0.1:9000", ⟨⟨"127.0.0.1:9000"⟩, 3⟩)]⟩,
        openedWorld.calls ++
          [Call.NewManager (some ⟨1⟩) "echo", Call.Grant ⟨1⟩ 5,
           Call.AddEndpoint ⟨2⟩ "echo/127.0.0.1:9000" ⟨"127.0.0.1:9000"⟩ 3,
           Call.KeepAlive ⟨1⟩ 3]⟩ := by
  decide

/-! ## The store as a map -/

theorem Store.get_delete_self (s : Store) (k : String) : (s.delete k).get k = none := by
  simp [Store.get, Store.delete, List.find?_eq_none]

theorem find_filter_of_ne (l : List (String × StoreEntry)) (k k' : String) (h : k' ≠ k) :
    (l.filter (fun kv => decide (kv.1 ≠ k))).find? (fun kv => decide (kv.1 = k')) =
      l.find? (fun kv => decide (kv.1 = k')) := by
  induction l with
  | nil => rfl
  | cons a t ih =>
    by_cases ha : a.1 = k
    · have hne : ¬ a.1 = k' := fun h' => h (h'.symm.trans ha)
      rw [List.filter_cons_of_neg (by simpa using ha), List.find?_cons_of_neg _ (by simpa using hne)]
      exact ih
    · rw [List.filter_cons_of_pos (by simpa using ha)]
      by_cases hb : a.1 = k'
      · rw [List.find?_cons_of_pos _ (by simpa using hb), List.find?_cons_of_pos _ (by simpa using hb)]
      · rw [List.find?_cons_of_neg _ (by simpa using hb), List.find?_cons_of_neg _ (by simpa using hb)]
        exact ih

theorem Store.get_delete_of_ne (s : Store) (k k' : String) (h : k' ≠ k) :
    (s.delete k).get k' = s.get k' := by
  simp only [Store.get, Store.delete, find_filter_of_ne _ k k' h]

theorem Store.get_put_self (s : Store) (k : String) (v : StoreEntry) :
    (s.put k v).get k = some v := by
  simp [Store.get, Store.put]

theorem Store.get_put_of_ne (s : Store) (k k' : String) (v : StoreEntry) (h : k' ≠ k) :
    (s.put k v).get k' = s.get k' := by
  have h' : ¬ k = k' := fun e => h e.symm
  have := Store.get_delete_of_ne s k k' h
  simp only [Store.get, Store.put, List.find?_cons] at this ⊢
  simp [h', this]

/-! ## What a `Register` that returns does -/

theorem Register_ok_inv (env : Env) (r : SvcDiscoveryRegistryImpl) (w : World)
    (sn h : String) (p : Int) (o : List DialOption)
    (hok : (Register env r w sn h p o).result = Outcome.ok ()) :
    ∃ client em lease,
      r.client = some client ∧
      env.newManager w r.client sn = Except.ok em ∧
      env.grant (w.log (Call.NewManager r.client sn)) client 5 = Except.ok lease ∧
      (Register env r w sn h p o).registry =
        { r with serviceKey := serviceKeyOf sn h p, endpointMgr := some em, leaseID := lease } ∧
      (Register env r w sn h p o).world.calls = w.calls ++
        [Call.NewManager (some client) sn, Call.Grant client 5,
         Call.AddEndpoint em (serviceKeyOf sn h p) ⟨addrOf h p⟩ lease,
         Call.KeepAlive client lease] ∧
      (Register env r w sn h p o).world.store =
        w.store.put (serviceKeyOf sn h p) ⟨⟨addrOf h p⟩, lease⟩ := by
  obtain ⟨client, res, dopts, skey, emgr, lid, schema⟩ := r
  revert hok
  simp only [Register]
  cases hm : env.newManager w client sn with
  | error e => simp
  | ok em =>
    cases client with
    | none => simp
    | some c =>
      simp only []
      cases hg : env.grant (w.log (Call.NewManager (some c) sn)) c 5 with
      | error e => simp
      | ok lease =>
        simp only []
        intro hok
        split at hok
        · simp at hok
        · rename_i ha
          split at hok
          · simp at hok
          · rename_i hk
            refine ⟨c, em, lease, rfl, rfl, hg, ?_⟩
            simp [ha, hk, World.log]

/-! ## Decimal digits and the shape of a key -/

theorem digitVal_digitChar (k : Nat) (h : k < 10) : digitVal (Nat.digitChar k) = k := by
  interval_cases k <;> decide

theorem digitChar_isDigit (k : Nat) (h : k < 10) : (Nat.digitChar k).isDigit = true := by
  interval_cases k <;> decide

theorem readDigits_toDigitsCore (fuel : Nat) :
    ∀ (n : Nat) (ds : List Char), n < fuel →
      readDigits 0 (Nat.toDigitsCore 10 fuel n ds) = readDigits n ds := by
  induction fuel with
  | zero => intro n ds h; omega
  | succ f ih =>
    intro n ds h
    have hd : digitVal (Nat.digitChar (n % 10)) = n % 10 :=
      digitVal_digitChar _ (Nat.mod_lt _ (by decide))
    simp only [Nat.toDigitsCore]
    split
    · rename_i h0
      have : n = n % 10 := by omega
      simp only [readDigits, List.foldl_cons, hd]
      congr 1
      omega
    · rename_i h0
      rw [ih (n / 10) _ (by omega)]
      simp only [readDigits, List.foldl_cons, hd]
      congr 1
      omega

theorem readDigits_toDigits (n : Nat) : readDigits 0 (Nat.toDigits 10 n) = n := by
  unfold Nat.toDigits
  rw [readDigits_toDigitsCore (n + 1) n [] (by omega)]
  rfl

theorem toDigits_injective (m n : Nat) (h : Nat.toDigits 10 m = Nat.toDigits 10 n) : m = n := by
  have := congrArg (readDigits 0) h
  rwa [readDigits_toDigits, readDigits_toDigits] at this

theorem toDigitsCore_isDigit (fuel : Nat) :
    ∀ (n : Nat) (ds : List Char), (∀ c ∈ ds, c.isDigit = true) →
      ∀ c ∈ Nat.toDigitsCore 10 fuel n ds, c.isDigit = true := by
  induction fuel with
  | zero => intro n ds h; simpa [Nat.toDigitsCore] using h
  | succ f ih =>
    intro n ds h
    have hd := digitChar_isDigit (n % 10) (Nat.mod_lt _ (by decide))
    have hds : ∀ c ∈ Nat.digitChar (n % 10) :: ds, c.isDigit = true := by
      intro c hc
      rcases List.mem_cons.mp hc with rfl | hc
      · exact hd
      · exact h c hc
    simp only [Nat.toDigitsCore]
    split
    · exact hds
    · exact ih _ _ hds

theorem toDigits_isDigit (n : Nat) : ∀ c ∈ Nat.toDigits 10 n, c.isDigit = true :=
  toDigitsCore_isDigit _ _ _ (by simp)


theorem fmtD_data_ofNat (n : Nat) : (fmtD (Int.ofNat n)).data = Nat.toDigits 10 n := rfl

theorem fmtD_data_negSucc (n : Nat) :
    (fmtD (Int.negSucc n)).data = '-' :: Nat.toDigits 10 (n + 1) := rfl

theorem fmtD_chars (p : Int) : ∀ c ∈ (fmtD p).data, c.isDigit = true ∨ c = '-' := by
  intro c hc
  cases p with
  | ofNat n => exact Or.inl (toDigits_isDigit n c hc)
  | negSucc n =>
    rw [fmtD_data_negSucc] at hc
    rcases List.mem_cons.mp hc with rfl | hc
    · exact Or.inr rfl
    · exact Or.inl (toDigits_isDigit _ c hc)

theorem colon_not_mem_fmtD (p : Int) : ':' ∉ (fmtD p).data := by
  intro h
  rcases fmtD_chars p _ h with h | h
  · exact absurd h (by decide)
  · exact absurd h (by decide)

theorem fmtD_injective (p q : Int) (h : (fmtD p).data = (fmtD q).data) : p = q := by
  have hminus : ∀ n : Nat, '-' ∉ Nat.toDigits 10 n := fun n hm =>
    absurd (toDigits_isDigit n _ hm) (by decide)
  cases p with
  | ofNat m =>
    cases q with
    | ofNat n =>
      rw [fmtD_data_ofNat, fmtD_data_ofNat] at h
      rw [toDigits_injective m n h]
    | negSucc n =>
      rw [fmtD_data_ofNat, fmtD_data_negSucc] at h
      exact absurd (h ▸ List.mem_cons_self _ _) (hminus m)
  | negSucc m =>
    cases q with
    | ofNat n =>
      rw [fmtD_data_ofNat, fmtD_data_negSucc] at h
      exact absurd (h ▸ List.mem_cons_self _ _) (hminus n)
    | negSucc n =>
      rw [fmtD_data_negSucc, fmtD_data_negSucc] at h
      have := toDigits_injective _ _ (List.cons.inj h).2
      have : m = n := by omega
      rw [this]

theorem split_at_first {α : Type} (a : α) :
    ∀ (x1 x2 y1 y2 : List α), a ∉ x1 → a ∉ x2 →
      x1 ++ a :: y1 = x2 ++ a :: y2 → x1 = x2 ∧ y1 = y2 := by
  intro x1
  induction x1 with
  | nil =>
    intro x2 y1 y2 _ h2 h
    cases x2 with
    | nil => exact ⟨rfl, (List.cons.inj h).2⟩
    | cons b t =>
      have hb : a = b := (List.cons.inj h).1
      exact absurd (hb ▸ List.mem_cons_self _ _) h2
  | cons b t ih =>
    intro x2 y1 y2 h1 h2 h
    cases x2 with
    | nil =>
      have hb : b = a := (List.cons.inj h).1
      exact absurd (hb ▸ List.mem_cons_self _ _) h1
    | cons c u =>
      have hh := List.cons.inj h
      have := ih u y1 y2 (fun hm => h1 (List.mem_cons_of_mem _ hm))
        (fun hm => h2 (List.mem_cons_of_mem _ hm)) hh.2
      exact ⟨by rw [hh.1, this.1], this.2⟩

theorem split_at_last {α : Type} (a : α) (x1 x2 y1 y2 : List α) (h1 : a ∉ y1) (h2 : a ∉ y2)
    (h : x1 ++ a :: y1 = x2 ++ a :: y2) : x1 = x2 ∧ y1 = y2 := by
  have hr := congrArg List.reverse h
  simp only [List.reverse_append, List.reverse_cons, List.append_assoc,
    List.singleton_append] at hr
  have := split_at_first a y1.reverse y2.reverse x1.reverse x2.reverse
    (by simpa using h1) (by simpa using h2) hr
  exact ⟨List.reverse_injective this.2, List.reverse_injective this.1⟩

theorem serviceKeyOf_data (sn h : String) (p : Int) :
    (serviceKeyOf sn h p).data = (sn.data ++ '/' :: h.data) ++ ':' :: (fmtD p).data := by
  simp [serviceKeyOf, String.data_append]

/-! ## The methods one by one -/

theorem GetConns_eq (env : Env) (r : SvcDiscoveryRegistryImpl) (w : World) (sn : String)
    (o : List DialOption) :
    (GetConns env r w sn o).registry = r ∧
    (GetConns env r w sn o).world =
      w.log (Call.DialContext (targetOf r.schema sn) (r.dialOptions ++ o)) ∧
    (GetConns env r w sn o).result =
      (match env.dialContext w (targetOf r.schema sn) (r.dialOptions ++ o) with
        | Except.error e => Outcome.error e
        | Except.ok conn => Outcome.ok [conn]) := by
  simp only [GetConns]
  cases env.dialContext w (targetOf r.schema sn) (r.dialOptions ++ o) <;> simp

theorem GetConn_eq (env : Env) (r : SvcDiscoveryRegistryImpl) (w : World) (sn : String)
    (o : List DialOption) :
    (GetConn env r w sn o).registry = r ∧
    (GetConn env r w sn o).world =
      w.log (Call.DialContext (targetOf r.schema sn) (r.dialOptions ++ o)) ∧
    (GetConn env r w sn o).result =
      (match env.dialContext w (targetOf r.schema sn) (r.dialOptions ++ o) with
        | Except.error e => Outcome.error e
        | Except.ok conn => Outcome.ok conn) := by
  simp only [GetConn]
  cases env.dialContext w (targetOf r.schema sn) (r.dialOptions ++ o) <;> simp

theorem Close_eq (r : SvcDiscoveryRegistryImpl) (w : World) :
    (Close r w).registry = r ∧ (Close r w).world.store = w.store ∧
    (Close r w).world.calls =
      w.calls ++ (match r.client with
        | none => []
        | some client => [Call.ClientClose client]) := by
  simp only [Close]
  cases r.client <;> simp [World.log]

theorem UnRegister_none (env : Env) (r : SvcDiscoveryRegistryImpl) (w : World)
    (h : r.endpointMgr = none) :
    (UnRegister env r w).result =
        Outcome.error (Err.errorf "endpoint manager is not initialized") ∧
      (UnRegister env r w).registry = r ∧ (UnRegister env r w).world = w := by
  simp [UnRegister, h]

theorem UnRegister_some (env : Env) (r : SvcDiscoveryRegistryImpl) (w : World) (em : Manager)
    (h : r.endpointMgr = some em) :
    (UnRegister env r w).registry = r ∧
    (UnRegister env r w).world.calls = w.calls ++ [Call.DeleteEndpoint em r.serviceKey] ∧
    (UnRegister env r w).result =
      (match env.deleteEndpoint w em r.serviceKey with
        | some e => Outcome.error e
        | none => Outcome.ok ()) ∧
    (UnRegister env r w).world.store =
      (match env.deleteEndpoint w em r.serviceKey with
        | some _ => w.store
        | none => w.store.delete r.serviceKey) := by
  simp only [UnRegister, h]
  cases env.deleteEndpoint w em r.serviceKey <;> simp [World.log]

theorem UnRegister_registry (env : Env) (r : SvcDiscoveryRegistryImpl) (w : World) :
    (UnRegister env r w).registry = r := by
  cases h : r.endpointMgr with
  | none => exact (UnRegister_none env r w h).2.1
  | some em => exact (UnRegister_some env r w em h).1

/-! ## Runs that hold no `Register` -/

theorem step_registry (env : Env) (s : SvcDiscoveryRegistryImpl × World) (op : Op)
    (h : op.isRegister = false) :
    (step env s op).1 = s.1 ∨
      ∃ o, op = Op.AddOption o ∧
        (step env s op).1 = { s.1 with dialOptions := s.1.dialOptions ++ o } := by
  cases op with
  | GetConns sn o => exact Or.inl (GetConns_eq env s.1 s.2 sn o).1
  | GetConn sn o => exact Or.inl (GetConn_eq env s.1 s.2 sn o).1
  | GetSelfConnTarget => exact Or.inl rfl
  | AddOption o => exact Or.inr ⟨o, rfl, rfl⟩
  | CloseConn c => exact Or.inl rfl
  | Register sn h' p o => simp [Op.isRegister] at h
  | UnRegister => exact Or.inl (UnRegister_registry env s.1 s.2)
  | Close => exact Or.inl (Close_eq s.1 s.2).1

theorem step_tracked (env : Env) (s : SvcDiscoveryRegistryImpl × World) (op : Op)
    (h : op.isRegister = false) :
    (step env s op).1.client = s.1.client ∧
    (step env s op).1.serviceKey = s.1.serviceKey ∧
    (step env s op).1.endpointMgr = s.1.endpointMgr ∧
    (step env s op).1.leaseID = s.1.leaseID ∧
    (step env s op).1.schema = s.1.schema := by
  rcases step_registry env s op h with e | ⟨o, _, e⟩ <;> simp [e]

theorem run_tracked (env : Env) (ops : List Op) :
    ∀ s : SvcDiscoveryRegistryImpl × World, ops.all (fun op => !op.isRegister) = true →
      (run env s ops).1.client = s.1.client ∧
      (run env s ops).1.serviceKey = s.1.serviceKey ∧
      (run env s ops).1.endpointMgr = s.1.endpointMgr ∧
      (run env s ops).1.leaseID = s.1.leaseID ∧
      (run env s ops).1.schema = s.1.schema := by
  induction ops with
  | nil => intro s _; simp [run]
  | cons op ops ih =>
    intro s h
    simp only [List.all_cons, Bool.and_eq_true, Bool.not_eq_true'] at h
    have h1 := step_tracked env s op h.1
    have h2 := ih (step env s op) h.2
    simp only [run]
    exact ⟨h2.1.trans h1.1, h2.2.1.trans h1.2.1, h2.2.2.1.trans h1.2.2.1,
      h2.2.2.2.1.trans h1.2.2.2.1, h2.2.2.2.2.trans h1.2.2.2.2⟩

theorem step_store (env : Env) (s : SvcDiscoveryRegistryImpl × World) (op : Op)
    (h : op.isRegister = false) (h' : op.isUnRegister = false) :
    (step env s op).2.store = s.2.store := by
  cases op with
  | GetConns sn o => simp [step, Ret.state, (GetConns_eq env s.1 s.2 sn o).2.1, World.log]
  | GetConn sn o => simp [step, Ret.state, (GetConn_eq env s.1 s.2 sn o).2.1, World.log]
  | GetSelfConnTarget => rfl
  | AddOption o => rfl
  | CloseConn c => rfl
  | Register sn h' p o => simp [Op.isRegister] at h
  | UnRegister => simp [Op.isUnRegister] at h'
  | Close => exact (Close_eq s.1 s.2).2.1

theorem run_store (env : Env) (ops : List Op) :
    ∀ s : SvcDiscoveryRegistryImpl × World,
      ops.all (fun op => !op.isRegister && !op.isUnRegister) = true →
      (run env s ops).2.store = s.2.store := by
  induction ops with
  | nil => intro s _; rfl
  | cons op ops ih =>
    intro s h
    simp only [List.all_cons, Bool.and_eq_true, Bool.not_eq_true'] at h
    simp only [run]
    rw [ih (step env s op) (by simpa using h.2), step_store env s op h.1.1 h.1.2]

theorem all_not_register (ops : List Op)
    (h : ops.all (fun op => !op.isRegister && !op.isUnRegister) = true) :
    ops.all (fun op => !op.isRegister) = true := by
  simp only [List.all_eq_true, Bool.and_eq_true] at h ⊢
  exact fun op hop => (h op hop).1

theorem run_noManagerCreated (env : Env) (ops : List Op) :
    ∀ s : SvcDiscoveryRegistryImpl × World, s.1.endpointMgr = none →
      noManagerCreated env s ops = true → (run env s ops).1.endpointMgr = none := by
  induction ops with
  | nil => intro s h _; exact h
  | cons op ops ih =>
    intro s h hn
    simp only [noManagerCreated, Bool.and_eq_true] at hn
    simp only [run]
    refine ih (step env s op) ?_ hn.2
    by_cases hr : op.isRegister = false
    · rw [(step_tracked env s op hr).2.2.1, h]
    · cases op with
      | Register sn h' p o =>
        have h1 := hn.1
        simp only [] at h1
        simp only [step, Ret.state, Register]
        cases hm : env.newManager s.2 s.1.client sn with
        | error e => simpa using h
        | ok em => simp [hm] at h1
      | _ => simp [Op.isRegister] at hr

theorem Register_calls_start (env : Env) (r : SvcDiscoveryRegistryImpl) (w : World)
    (sn h : String) (p : Int) (o : List DialOption) :
    ∃ rest, (Register env r w sn h p o).world.calls =
      w.calls ++ Call.NewManager r.client sn :: rest := by
  obtain ⟨client, res, dopts, skey, emgr, lid, schema⟩ := r
  simp only [Register]
  cases env.newManager w client sn with
  | error e => exact ⟨[], rfl⟩
  | ok em =>
    cases client with
    | none => exact ⟨[], rfl⟩
    | some c =>
      simp only []
      cases env.grant (w.log (Call.NewManager (some c) sn)) c 5 with
      | error e => exact ⟨[Call.Grant c 5], by simp [World.log]⟩
      | ok lease =>
        simp only []
        split
        · exact ⟨[Call.Grant c 5,
            Call.AddEndpoint em (serviceKeyOf sn h p) ⟨addrOf h p⟩ lease], by simp [World.log]⟩
        · split
          · exact ⟨[Call.Grant c 5,
              Call.AddEndpoint em (serviceKeyOf sn h p) ⟨addrOf h p⟩ lease,
              Call.KeepAlive c lease], by simp [World.log]⟩
          · exact ⟨[Call.Grant c 5,
              Call.AddEndpoint em (serviceKeyOf sn h p) ⟨addrOf h p⟩ lease,
              Call.KeepAlive c lease], by simp [World.log]⟩

theorem Register_error_inv (env : Env) (r : SvcDiscoveryRegistryImpl) (w : World)
    (sn h : String) (p : Int) (o : List DialOption) (e : Err)
    (herr : (Register env r w sn h p o).result = Outcome.error e) :
    (Register env r w sn h p o).registry.client = r.client ∧
    (Register env r w sn h p o).registry.resolver = r.resolver ∧
    (Register env r w sn h p o).registry.dialOptions = r.dialOptions ∧
    (Register env r w sn h p o).registry.schema = r.schema ∧
    (Register env r w sn h p o).registry.serviceKey = serviceKeyOf sn h p ∧
    (match env.newManager w r.client sn with
      | Except.error _ =>
        (Register env r w sn h p o).registry.endpointMgr = r.endpointMgr ∧
        (Register env r w sn h p o).registry.leaseID = r.leaseID
      | Except.ok em =>
        (Register env r w sn h p o).registry.endpointMgr = some em ∧
        ∀ c, r.client = some c →
          (match env.grant (w.log (Call.NewManager r.client sn)) c 5 with
            | Except.error _ => (Register env r w sn h p o).registry.leaseID = r.leaseID
            | Except.ok lease => (Register env r w sn h p o).registry.leaseID = lease)) := by
  obtain ⟨client, res, dopts, skey, emgr, lid, schema⟩ := r
  revert herr
  simp only [Register]
  cases hm : env.newManager w client sn with
  | error e' => simp
  | ok em =>
    cases client with
    | none => simp
    | some c =>
      simp only []
      cases hg : env.grant (w.log (Call.NewManager (some c) sn)) c 5 with
      | error e' =>
        intro _
        refine ⟨rfl, rfl, rfl, rfl, rfl, rfl, ?_⟩
        intro c' hc'
        cases hc'
        simp [hg]
      | ok lease =>
        simp only []
        intro _
        have key : ∀ c', some c = some c' →
            (match env.grant (w.log (Call.NewManager (some c) sn)) c' 5 with
              | Except.error _ => lease = lid
              | Except.ok lease' => lease = lease') := by
          intro c' hc'
          cases hc'
          simp [hg]
        split
        · exact ⟨rfl, rfl, rfl, rfl, rfl, rfl, key⟩
        · split
          · exact ⟨rfl, rfl, rfl, rfl, rfl, rfl, key⟩
          · exact ⟨rfl, rfl, rfl, rfl, rfl, rfl, key⟩

theorem Register_calls_grant (env : Env) (r : SvcDiscoveryRegistryImpl) (w : World)
    (sn h : String) (p : Int) (o : List DialOption) (c : Client) (em : Manager)
    (hc : r.client = some c) (hm : env.newManager w (some c) sn = Except.ok em) :
    ∃ rest, (Register env r w sn h p o).world.calls =
      w.calls ++ Call.NewManager (some c) sn :: Call.Grant c 5 :: rest := by
  obtain ⟨client, res, dopts, skey, emgr, lid, schema⟩ := r
  cases hc
  simp only [Register, hm]
  cases env.grant (w.log (Call.NewManager (some c) sn)) c 5 with
  | error e => exact ⟨[], by simp [World.log]⟩
  | ok lease =>
    simp only []
    split
    · exact ⟨[Call.AddEndpoint em (serviceKeyOf sn h p) ⟨addrOf h p⟩ lease],
        by simp [World.log]⟩
    · split
      · exact ⟨[Call.AddEndpoint em (serviceKeyOf sn h p) ⟨addrOf h p⟩ lease,
          Call.KeepAlive c lease], by simp [World.log]⟩
      · exact ⟨[Call.AddEndpoint em (serviceKeyOf sn h p) ⟨addrOf h p⟩ lease,
          Call.KeepAlive c lease], by simp [World.log]⟩

theorem Register_error_library (env : Env) (r : SvcDiscoveryRegistryImpl) (w : World)
    (sn h : String) (p : Int) (o : List DialOption) (e : Err)
    (herr : (Register env r w sn h p o).result = Outcome.error e) :
    env.newManager w r.client sn = Except.error e ∨
    ∃ c em, r.client = some c ∧ env.newManager w r.client sn = Except.ok em ∧
      (env.grant (w.log (Call.NewManager r.client sn)) c 5 = Except.error e ∨
       ∃ lease, env.grant (w.log (Call.NewManager r.client sn)) c 5 = Except.ok lease ∧
        (env.addEndpoint ((w.log (Call.NewManager r.client sn)).log (Call.Grant c 5)) em
            (serviceKeyOf sn h p) ⟨addrOf h p⟩ lease = some e ∨
         (env.addEndpoint ((w.log (Call.NewManager r.client sn)).log (Call.Grant c 5)) em
            (serviceKeyOf sn h p) ⟨addrOf h p⟩ lease = none ∧
          env.keepAlive
            ⟨w.store.put (serviceKeyOf sn h p) ⟨⟨addrOf h p⟩, lease⟩,
             w.calls ++ [Call.NewManager r.client sn, Call.Grant c 5,
               Call.AddEndpoint em (serviceKeyOf sn h p) ⟨addrOf h p⟩ lease]⟩
            c lease = some e))) := by
  obtain ⟨client, res, dopts, skey, emgr, lid, schema⟩ := r
  revert herr
  simp only [Register]
  cases hm : env.newManager w client sn with
  | error e' =>
    intro herr
    exact Or.inl (by simpa using herr)
  | ok em =>
    cases client with
    | none => simp
    | some c =>
      simp only []
      cases hg : env.grant (w.log (Call.NewManager (some c) sn)) c 5 with
      | error e' =>
        intro herr
        refine Or.inr ⟨c, em, rfl, rfl, Or.inl ?_⟩
        rw [hg]
        simpa using herr
      | ok lease =>
        simp only []
        intro herr
        refine Or.inr ⟨c, em, rfl, rfl, Or.inr ⟨lease, hg, ?_⟩⟩
        split at herr
        · rename_i e' ha
          have : e' = e := by simpa using herr
          exact Or.inl (this ▸ ha)
        · rename_i ha
          split at herr
          · rename_i e' hk
            have : e' = e := by simpa using herr
            refine Or.inr ⟨ha, ?_⟩
            rw [← this, ← hk]
            simp [World.log]
          · simp at herr

theorem Register_ok_of_answers (env : Env) (r : SvcDiscoveryRegistryImpl) (w : World)
    (sn h : String) (p : Int) (o : List DialOption) (c : Client) (em : Manager)
    (lease : LeaseID) (hc : r.client = some c)
    (hm : env.newManager w (some c) sn = Except.ok em)
    (hg : env.grant (w.log (Call.NewManager (some c) sn)) c 5 = Except.ok lease)
    (ha : env.addEndpoint ((w.log (Call.NewManager (some c) sn)).log (Call.Grant c 5)) em
      (serviceKeyOf sn h p) ⟨addrOf h p⟩ lease = none)
    (hk : env.keepAlive
      ⟨w.store.put (serviceKeyOf sn h p) ⟨⟨addrOf h p⟩, lease⟩,
       w.calls ++ [Call.NewManager (some c) sn, Call.Grant c 5,
         Call.AddEndpoint em (serviceKeyOf sn h p) ⟨addrOf h p⟩ lease]⟩
      c lease = none) :
    (Register env r w sn h p o).result = Outcome.ok () := by
  obtain ⟨client, res, dopts, skey, emgr, lid, schema⟩ := r
  cases hc
  have hk' : env.keepAlive
      { store := (((w.log (Call.NewManager (some c) sn)).log (Call.Grant c 5)).log
            (Call.AddEndpoint em (serviceKeyOf sn h p) ⟨addrOf h p⟩ lease)).store.put
            (serviceKeyOf sn h p) ⟨⟨addrOf h p⟩, lease⟩,
        calls := (((w.log (Call.NewManager (some c) sn)).log (Call.Grant c 5)).log
            (Call.AddEndpoint em (serviceKeyOf sn h p) ⟨addrOf h p⟩ lease)).calls }
      c lease = none := by
    rw [← hk]
    simp [World.log]
  simp only [Register, hm, hg, ha, hk']

/-! ## UnRegister on a registry that holds no manager -/

/-- C1, the claim as stated fails: on an opened registry whose only `Register`
failed at the lease grant, `UnRegister` does not answer the error of an
unregistered registry; it issues a delete for the key of the failed call and
returns nil. -/
theorem UnRegister_after_failed_grant :
    (Register envGrantDown openedRegistry openedWorld "echo" "127.0.0.1" 9000 []).result
      = Outcome.error (Err.external 1) ∧
    (UnRegister envGrantDown
        (Register envGrantDown openedRegistry openedWorld "echo" "127.0.0.1" 9000 []).registry
        (Register envGrantDown openedRegistry openedWorld "echo" "127.0.0.1" 9000 []).world).result
      = Outcome.ok () ∧
    (UnRegister envGrantDown
        (Register envGrantDown openedRegistry openedWorld "echo" "127.0.0.1" 9000 []).registry
        (Register envGrantDown openedRegistry openedWorld "echo" "127.0.0.1" 9000 []).world).world.calls
      = (Register envGrantDown openedRegistry openedWorld "echo" "127.0.0.1" 9000 []).world.calls
          ++ [Call.DeleteEndpoint ⟨2⟩ "echo/127.0.0.1:9000"] := by
  decide

/-- C1, amended: from a registry without an endpoint manager (a new one), after
any run of method calls in which every `Register` failed at the creation of the
endpoint manager, `UnRegister` returns the error "endpoint manager is not
initialized", makes no library call and leaves registry and store as they were. -/
theorem UnRegister_not_initialized (env : Env) (r : SvcDiscoveryRegistryImpl) (w : World)
    (ops : List Op) (h0 : r.endpointMgr = none)
    (hops : noManagerCreated env (r, w) ops = true) :
    (UnRegister env (run env (r, w) ops).1 (run env (r, w) ops).2).result =
        Outcome.error (Err.errorf "endpoint manager is not initialized") ∧
    (UnRegister env (run env (r, w) ops).1 (run env (r, w) ops).2).registry =
        (run env (r, w) ops).1 ∧
    (UnRegister env (run env (r, w) ops).1 (run env (r, w) ops).2).world =
        (run env (r, w) ops).2 :=
  UnRegister_none env _ _ (run_noManagerCreated env ops (r, w) h0 hops)

/-- Instance of C1 as amended: an opened registry whose `Register` failed at the
creation of the manager, then dialled and called `UnRegister` once already. -/
theorem UnRegister_not_initialized_witness :
    openedRegistry.endpointMgr = none ∧
    noManagerCreated envManagerDown (openedRegistry, openedWorld)
      [Op.Register "echo" "127.0.0.1" 9000 [], Op.GetConn "echo" [], Op.UnRegister] = true ∧
    ((UnRegister envManagerDown
        (run envManagerDown (openedRegistry, openedWorld)
          [Op.Register "echo" "127.0.0.1" 9000 [], Op.GetConn "echo" [], Op.UnRegister]).1
        (run envManagerDown (openedRegistry, openedWorld)
          [Op.Register "echo" "127.0.0.1" 9000 [], Op.GetConn "echo" [], Op.UnRegister]).2).result =
        Outcome.error (Err.errorf "endpoint manager is not initialized") ∧
     (UnRegister envManagerDown
        (run envManagerDown (openedRegistry, openedWorld)
          [Op.Register "echo" "127.0.0.1" 9000 [], Op.GetConn "echo" [], Op.UnRegister]).1
        (run envManagerDown (openedRegistry, openedWorld)
          [Op.Register "echo" "127.0.0.1" 9000 [], Op.GetConn "echo" [], Op.UnRegister]).2).registry =
        (run envManagerDown (openedRegistry, openedWorld)
          [Op.Register "echo" "127.0.0.1" 9000 [], Op.GetConn "echo" [], Op.UnRegister]).1 ∧
     (UnRegister envManagerDown
        (run envManagerDown (openedRegistry, openedWorld)
          [Op.Register "echo" "127.0.0.1" 9000 [], Op.GetConn "echo" [], Op.UnRegister]).1
        (run envManagerDown (openedRegistry, openedWorld)
          [Op.Register "echo" "127.0.0.1" 9000 [], Op.GetConn "echo" [], Op.UnRegister]).2).world =
        (run envManagerDown (openedRegistry, openedWorld)
          [Op.Register "echo" "127.0.0.1" 9000 [], Op.GetConn "echo" [], Op.UnRegister]).2) :=
  ⟨by decide, by decide,
    UnRegister_not_initialized envManagerDown openedRegistry openedWorld
      [Op.Register "echo" "127.0.0.1" 9000 [], Op.GetConn "echo" [], Op.UnRegister]
      (by decide) (by decide)⟩

/-! ## What a failed `Register` leaves in the registry -/

/-- C2, the claim as stated fails: a `Register` that fails at the lease grant
returns an error and yet leaves the key and the manager of the failed call in
the fields `serviceKey` and `endpointMgr`. -/
theorem Register_error_leaves_fields :
    (Register envGrantDown openedRegistry openedWorld "echo" "127.0.0.1" 9000 []).result
      = Outcome.error (Err.external 1) ∧
    openedRegistry.serviceKey = "" ∧
    (Register envGrantDown openedRegistry openedWorld "echo" "127.0.0.1" 9000 []).registry.serviceKey
      = "echo/127.0.0.1:9000" ∧
    openedRegistry.endpointMgr = none ∧
    (Register envGrantDown openedRegistry openedWorld "echo" "127.0.0.1" 9000 []).registry.endpointMgr
      = some ⟨2⟩ := by
  decide

/-- C2, amended: when `Register` returns an error, `client`, `resolver`,
`dialOptions` and `schema` keep their values and `serviceKey` is the key of this
call.  `endpointMgr` and `leaseID` keep their values when the creation of the
endpoint manager failed; otherwise `endpointMgr` is the new manager, and
`leaseID` keeps its value when the lease grant failed and is the granted lease
when the key write or the keepalive start failed. -/
theorem Register_error_state (env : Env) (r : SvcDiscoveryRegistryImpl) (w : World)
    (serviceName host : String) (port : Int) (opts : List DialOption) (e : Err)
    (herr : (Register env r w serviceName host port opts).result = Outcome.error e) :
    (Register env r w serviceName host port opts).registry.client = r.client ∧
    (Register env r w serviceName host port opts).registry.resolver = r.resolver ∧
    (Register env r w serviceName host port opts).registry.dialOptions = r.dialOptions ∧
    (Register env r w serviceName host port opts).registry.schema = r.schema ∧
    (Register env r w serviceName host port opts).registry.serviceKey =
      serviceName ++ "/" ++ host ++ ":" ++ fmtD port ∧
    (match env.newManager w r.client serviceName with
      | Except.error _ =>
        (Register env r w serviceName host port opts).registry.endpointMgr = r.endpointMgr ∧
        (Register env r w serviceName host port opts).registry.leaseID = r.leaseID
      | Except.ok em =>
        (Register env r w serviceName host port opts).registry.endpointMgr = some em ∧
        ∀ c, r.client = some c →
          (match env.grant (w.log (Call.NewManager r.client serviceName)) c 5 with
            | Except.error _ =>
              (Register env r w serviceName host port opts).registry.leaseID = r.leaseID
            | Except.ok lease =>
              (Register env r w serviceName host port opts).registry.leaseID = lease)) :=
  Register_error_inv env r w serviceName host port opts e herr

/-- Instance of C2 as amended: a `Register` on the opened registry that fails at
the lease grant. -/
theorem Register_error_state_witness :
    (Register envGrantDown openedRegistry openedWorld "echo" "127.0.0.1" 9000 []).result
      = Outcome.error (Err.external 1) ∧
    (Register envGrantDown openedRegistry openedWorld "echo" "127.0.0.1" 9000 []).registry.schema
      = openedRegistry.schema ∧
    (Register envGrantDown openedRegistry openedWorld "echo" "127.0.0.1" 9000 []).registry.serviceKey
      = "echo" ++ "/" ++ "127.0.0.1" ++ ":" ++ fmtD 9000 :=
  ⟨by decide,
    (Register_error_state envGrantDown openedRegistry openedWorld "echo" "127.0.0.1" 9000 []
      (Err.external 1) (by decide)).2.2.2.1,
    (Register_error_state envGrantDown openedRegistry openedWorld "echo" "127.0.0.1" 9000 []
      (Err.external 1) (by decide)).2.2.2.2.1⟩

/-! ## What a successful `Register` does -/

/-- C4, the claim as stated fails: after `Close` on an opened registry, with a
store client that refuses grants once closed, `GetConn` and `GetConns` still
call the dialer and return a connection, and `Register` still calls
`NewManager` and `Grant` on the store client and returns the error that the
grant answered. -/
theorem calls_after_Close_go_through :
    (GetConn envCloseable (Close openedRegistry openedWorld).registry
        (Close openedRegistry openedWorld).world "echo" []).result = Outcome.ok ⟨3⟩ ∧
    (GetConn envCloseable (Close openedRegistry openedWorld).registry
        (Close openedRegistry openedWorld).world "echo" []).world.calls =
      openedWorld.calls ++ [Call.ClientClose ⟨1⟩, Call.DialContext "openim:///echo" []] ∧
    (GetConns envCloseable (Close openedRegistry openedWorld).registry
        (Close openedRegistry openedWorld).world "echo" []).result = Outcome.ok [⟨3⟩] ∧
    (GetConns envCloseable (Close openedRegistry openedWorld).registry
        (Close openedRegistry openedWorld).world "echo" []).world.calls =
      openedWorld.calls ++ [Call.ClientClose ⟨1⟩, Call.DialContext "openim:///echo" []] ∧
    envCloseable.grant
        ((Close openedRegistry openedWorld).world.log (Call.NewManager (some ⟨1⟩) "echo")) ⟨1⟩ 5
      = Except.error (Err.external 3) ∧
    (Register envCloseable (Close openedRegistry openedWorld).registry
        (Close openedRegistry openedWorld).world "echo" "127.0.0.1" 9000 []).result
      = Outcome.error (Err.external 3) ∧
    (Register envCloseable (Close openedRegistry openedWorld).registry
        (Close openedRegistry openedWorld).world "echo" "127.0.0.1" 9000 []).world.calls =
      openedWorld.calls ++
        [Call.ClientClose ⟨1⟩, Call.NewManager (some ⟨1⟩) "echo", Call.Grant ⟨1⟩ 5] :=
  ⟨by decide, by decide, by decide, by decide, rfl, by decide, by decide⟩

/-- C4, amended: `Close` changes no field of the registry, so nothing records
that it was called; its only effect is the `Close` call on the store client in
the trace.  In every state of registry and world, so in any state reached
after `Close`, `GetConn` and `GetConns` issue their dial request and return
what the dial returns.  `Register` calls `NewManager` with the client of the registry and,
given a manager, `Grant` on that client; every error it returns is the answer
of one of its library calls (`NewManager`, `Grant`, `AddEndpoint`, `KeepAlive`),
and it returns nil when all four answer success.  So none of the three returns
an error of the registry's own. -/
theorem Close_sets_no_flag (env : Env) (r : SvcDiscoveryRegistryImpl) (w : World)
    (s : SvcDiscoveryRegistryImpl × World)
    (serviceName host : String) (port : Int) (opts : List DialOption) :
    (Close r w).registry = r ∧
    (Close r w).world.store = w.store ∧
    (Close r w).world.calls =
      w.calls ++ (match r.client with
        | none => []
        | some client => [Call.ClientClose client]) ∧
    (GetConn env s.1 s.2 serviceName opts).world.calls =
      s.2.calls ++
        [Call.DialContext (targetOf s.1.schema serviceName) (s.1.dialOptions ++ opts)] ∧
    (GetConn env s.1 s.2 serviceName opts).result =
      (match env.dialContext s.2 (targetOf s.1.schema serviceName)
          (s.1.dialOptions ++ opts) with
        | Except.error e => Outcome.error e
        | Except.ok conn => Outcome.ok conn) ∧
    (GetConns env s.1 s.2 serviceName opts).world.calls =
      s.2.calls ++
        [Call.DialContext (targetOf s.1.schema serviceName) (s.1.dialOptions ++ opts)] ∧
    (GetConns env s.1 s.2 serviceName opts).result =
      (match env.dialContext s.2 (targetOf s.1.schema serviceName)
          (s.1.dialOptions ++ opts) with
        | Except.error e => Outcome.error e
        | Except.ok conn => Outcome.ok [conn]) ∧
    (∃ rest,
      (Register env s.1 s.2 serviceName host port opts).world.calls =
        s.2.calls ++ Call.NewManager s.1.client serviceName :: rest) ∧
    (∀ c em, s.1.client = some c → env.newManager s.2 (some c) serviceName = Except.ok em →
      ∃ rest,
        (Register env s.1 s.2 serviceName host port opts).world.calls =
          s.2.calls ++ Call.NewManager (some c) serviceName :: Call.Grant c 5 :: rest) ∧
    (∀ e, (Register env s.1 s.2 serviceName host port opts).result = Outcome.error e →
      env.newManager s.2 s.1.client serviceName = Except.error e ∨
      ∃ c em, s.1.client = some c ∧
        env.newManager s.2 s.1.client serviceName = Except.ok em ∧
        (env.grant (s.2.log (Call.NewManager s.1.client serviceName)) c 5 = Except.error e ∨
         ∃ lease,
          env.grant (s.2.log (Call.NewManager s.1.client serviceName)) c 5 = Except.ok lease ∧
          (env.addEndpoint
              ((s.2.log (Call.NewManager s.1.client serviceName)).log (Call.Grant c 5)) em
              (serviceName ++ "/" ++ host ++ ":" ++ fmtD port)
              ⟨host ++ ":" ++ fmtD port⟩ lease = some e ∨
           (env.addEndpoint
              ((s.2.log (Call.NewManager s.1.client serviceName)).log (Call.Grant c 5)) em
              (serviceName ++ "/" ++ host ++ ":" ++ fmtD port)
              ⟨host ++ ":" ++ fmtD port⟩ lease = none ∧
            env.keepAlive
              ⟨s.2.store.put (serviceName ++ "/" ++ host ++ ":" ++ fmtD port)
                ⟨⟨host ++ ":" ++ fmtD port⟩, lease⟩,
               s.2.calls ++ [Call.NewManager s.1.client serviceName, Call.Grant c 5,
                 Call.AddEndpoint em (serviceName ++ "/" ++ host ++ ":" ++ fmtD port)
                   ⟨host ++ ":" ++ fmtD port⟩ lease]⟩
              c lease = some e)))) ∧
    (∀ c em lease, s.1.client = some c →
      env.newManager s.2 (some c) serviceName = Except.ok em →
      env.grant (s.2.log (Call.NewManager (some c) serviceName)) c 5 = Except.ok lease →
      env.addEndpoint ((s.2.log (Call.NewManager (some c) serviceName)).log (Call.Grant c 5)) em
        (serviceName ++ "/" ++ host ++ ":" ++ fmtD port) ⟨host ++ ":" ++ fmtD port⟩ lease
          = none →
      env.keepAlive
        ⟨s.2.store.put (serviceName ++ "/" ++ host ++ ":" ++ fmtD port)
          ⟨⟨host ++ ":" ++ fmtD port⟩, lease⟩,
         s.2.calls ++ [Call.NewManager (some c) serviceName, Call.Grant c 5,
           Call.AddEndpoint em (serviceName ++ "/" ++ host ++ ":" ++ fmtD port)
             ⟨host ++ ":" ++ fmtD port⟩ lease]⟩
        c lease = none →
      (Register env s.1 s.2 serviceName host port opts).result = Outcome.ok ()) := by
  have h1 := GetConn_eq env s.1 s.2 serviceName opts
  have h2 := GetConns_eq env s.1 s.2 serviceName opts
  refine ⟨(Close_eq r w).1, (Close_eq r w).2.1, (Close_eq r w).2.2, ?_, h1.2.2, ?_, h2.2.2,
    Register_calls_start _ _ _ _ _ _ _, ?_, ?_, ?_⟩
  · rw [h1.2.1]; rfl
  · rw [h2.2.1]; rfl
  · intro c em hc hm
    exact Register_calls_grant env s.1 s.2 serviceName host port opts c em hc hm
  · intro e herr
    exact Register_error_library env s.1 s.2 serviceName host port opts e herr
  · intro c em lease hc hm hg ha hk
    exact Register_ok_of_answers env s.1 s.2 serviceName host port opts c em lease hc hm hg ha hk

/-! ## `Close` twice -/

/-- C5, the claim as stated fails: on an opened registry the second `Close`
calls `Close` on the store client once more. -/
theorem Close_twice_closes_twice :
    (Close (Close openedRegistry openedWorld).registry
        (Close openedRegistry openedWorld).world).world.calls =
      openedWorld.calls ++ [Call.ClientClose ⟨1⟩, Call.ClientClose ⟨1⟩] ∧
    (Close (Close openedRegistry openedWorld).registry
        (Close openedRegistry openedWorld).world).world ≠ (Close openedRegistry openedWorld).world := by
  decide

/-- C5, amended: on a registry that holds a store client, every `Close` calls
`Close` on that client once, so two calls of `Close` issue two such calls; each
leaves the registry and the store unchanged, so the registry after the second
`Close` is as the first left it. -/
theorem Close_twice (r : SvcDiscoveryRegistryImpl) (w : World) (client : Client)
    (hc : r.client = some client) :
    (Close r w).registry = r ∧
    (Close r w).world.calls = w.calls ++ [Call.ClientClose client] ∧
    (Close (Close r w).registry (Close r w).world).registry = (Close r w).registry ∧
    (Close (Close r w).registry (Close r w).world).world.calls =
      w.calls ++ [Call.ClientClose client, Call.ClientClose client] ∧
    (Close (Close r w).registry (Close r w).world).world.store = w.store := by
  simp [Close, hc, World.log]

/-- Instance of C5 as amended: `Close` twice on the opened registry. -/
theorem Close_twice_witness :
    openedRegistry.client = some ⟨1⟩ ∧
    ((Close openedRegistry openedWorld).registry = openedRegistry ∧
     (Close openedRegistry openedWorld).world.calls =
        openedWorld.calls ++ [Call.ClientClose ⟨1⟩] ∧
     (Close (Close openedRegistry openedWorld).registry
        (Close openedRegistry openedWorld).world).registry =
        (Close openedRegistry openedWorld).registry ∧
     (Close (Close openedRegistry openedWorld).registry
        (Close openedRegistry openedWorld).world).world.calls =
        openedWorld.calls ++ [Call.ClientClose ⟨1⟩, Call.ClientClose ⟨1⟩] ∧
     (Close (Close openedRegistry openedWorld).registry
        (Close openedRegistry openedWorld).world).world.store = openedWorld.store) :=
  ⟨rfl, Close_twice openedRegistry openedWorld ⟨1⟩ rfl⟩

/-! ## `UnRegister` after `Register` -/

/-- C6: after a `Register` that returned nil and any method calls other than
`Register`, `UnRegister` makes exactly one library call, the delete of the key
`serviceName/host:port` that `Register` wrote (so no lease revoke), leaves the
registry, its `leaseID` included, unchanged, returns what the delete returns,
and when it returns nil the key is absent from the store. -/
theorem UnRegister_after_Register (env : Env) (r : SvcDiscoveryRegistryImpl) (w : World)
    (serviceName host : String) (port : Int) (opts : List DialOption) (ops : List Op)
    (s : SvcDiscoveryRegistryImpl × World)
    (hok : (Register env r w serviceName host port opts).result = Outcome.ok ())
    (hops : ops.all (fun op => !op.isRegister) = true)
    (hs : s = run env (Register env r w serviceName host port opts).state ops) :
    ∃ em,
      (UnRegister env s.1 s.2).world.calls =
        s.2.calls ++ [Call.DeleteEndpoint em (serviceName ++ "/" ++ host ++ ":" ++ fmtD port)] ∧
      (∀ c id, Call.Revoke c id ∉
        [Call.DeleteEndpoint em (serviceName ++ "/" ++ host ++ ":" ++ fmtD port)]) ∧
      (UnRegister env s.1 s.2).registry = s.1 ∧
      (UnRegister env s.1 s.2).registry.leaseID =
        (Register env r w serviceName host port opts).registry.leaseID ∧
      ((UnRegister env s.1 s.2).result = Outcome.ok () ↔
        env.deleteEndpoint s.2 em (serviceName ++ "/" ++ host ++ ":" ++ fmtD port) = none) ∧
      ((UnRegister env s.1 s.2).result = Outcome.ok () →
        (UnRegister env s.1 s.2).world.store.get
          (serviceName ++ "/" ++ host ++ ":" ++ fmtD port) = none) := by
  obtain ⟨client, em, lease, _, _, _, hr, _, _⟩ :=
    Register_ok_inv env r w serviceName host port opts hok
  have ht := run_tracked env ops (Register env r w serviceName host port opts).state hops
  rw [← hs] at ht
  have hkey : s.1.serviceKey = serviceKeyOf serviceName host port := by
    rw [ht.2.1]; simp [Ret.state, hr]
  have hem : s.1.endpointMgr = some em := by
    rw [ht.2.2.1]; simp [Ret.state, hr]
  have hu := UnRegister_some env s.1 s.2 em hem
  rw [hkey] at hu
  have hres : (UnRegister env s.1 s.2).result = Outcome.ok () ↔
      env.deleteEndpoint s.2 em (serviceKeyOf serviceName host port) = none := by
    rw [hu.2.2.1]
    cases env.deleteEndpoint s.2 em (serviceKeyOf serviceName host port) <;> simp
  refine ⟨em, hu.2.1, ?_, hu.1, ?_, hres, ?_⟩
  · intro c id hmem
    simp at hmem
  · rw [hu.1, ht.2.2.2.1]; rfl
  · intro h
    have hd := hres.mp h
    have hst := hu.2.2.2
    rw [hd] at hst
    rw [hst]
    exact Store.get_delete_self _ _

/-- Instance of C6: `Register`, a dial, an added option, then `UnRegister`. -/
theorem UnRegister_after_Register_witness :
    (Register envUp openedRegistry openedWorld "echo" "127.0.0.1" 9000 []).result
      = Outcome.ok () ∧
    [Op.GetConn "echo" [], Op.AddOption [⟨7⟩]].all (fun op => !op.isRegister) = true ∧
    registeredState =
      run envUp (Register envUp openedRegistry openedWorld "echo" "127.0.0.1" 9000 []).state
        [Op.GetConn "echo" [], Op.AddOption [⟨7⟩]] ∧
    ∃ em,
      (UnRegister envUp registeredState.1 registeredState.2).world.calls =
        registeredState.2.calls ++
          [Call.DeleteEndpoint em ("echo" ++ "/" ++ "127.0.0.1" ++ ":" ++ fmtD 9000)] ∧
      (∀ c id, Call.Revoke c id ∉
        [Call.DeleteEndpoint em ("echo" ++ "/" ++ "127.0.0.1" ++ ":" ++ fmtD 9000)]) ∧
      (UnRegister envUp registeredState.1 registeredState.2).registry = registeredState.1 ∧
      (UnRegister envUp registeredState.1 registeredState.2).registry.leaseID =
        (Register envUp openedRegistry openedWorld "echo" "127.0.0.1" 9000 []).registry.leaseID ∧
      ((UnRegister envUp registeredState.1 registeredState.2).result = Outcome.ok () ↔
        envUp.deleteEndpoint registeredState.2 em
          ("echo" ++ "/" ++ "127.0.0.1" ++ ":" ++ fmtD 9000) = none) ∧
      ((UnRegister envUp registeredState.1 registeredState.2).result = Outcome.ok () →
        (UnRegister envUp registeredState.1 registeredState.2).world.store.get
          ("echo" ++ "/" ++ "127.0.0.1" ++ ":" ++ fmtD 9000) = none) :=
  ⟨by decide, by decide, rfl,
    UnRegister_after_Register envUp openedRegistry openedWorld "echo" "127.0.0.1" 9000 []
      [Op.GetConn "echo" [], Op.AddOption [⟨7⟩]] registeredState (by decide) (by decide) rfl⟩

/-! ## `GetConns` and `GetConn` -/

/-- C7: `GetConn` and `GetConns` make the same single library call, a dial of
`schema + ":///" + serviceName` with the accumulated options followed by the
options of the call, and leave the registry unchanged.  `GetConns` returns an
error exactly when the dial does, the same error as `GetConn`, and otherwise
the one-element list of the connection that `GetConn` returns. -/
theorem GetConns_wraps_GetConn (env : Env) (r : SvcDiscoveryRegistryImpl) (w : World)
    (serviceName : String) (opts : List DialOption) :
    (GetConn env r w serviceName opts).world.calls =
      w.calls ++ [Call.DialContext (r.schema ++ ":///" ++ serviceName) (r.dialOptions ++ opts)] ∧
    (GetConns env r w serviceName opts).world = (GetConn env r w serviceName opts).world ∧
    (GetConn env r w serviceName opts).registry = r ∧
    (GetConns env r w serviceName opts).registry = r ∧
    (∀ e, (GetConns env r w serviceName opts).result = Outcome.error e ↔
      env.dialContext w (r.schema ++ ":///" ++ serviceName) (r.dialOptions ++ opts)
        = Except.error e) ∧
    (∀ e, (GetConns env r w serviceName opts).result = Outcome.error e ↔
      (GetConn env r w serviceName opts).result = Outcome.error e) ∧
    (∀ l, (GetConns env r w serviceName opts).result = Outcome.ok l ↔
      ∃ conn, l = [conn] ∧ (GetConn env r w serviceName opts).result = Outcome.ok conn) ∧
    (GetConns env r w serviceName opts).result ≠ Outcome.panic := by
  have h1 := GetConn_eq env r w serviceName opts
  have h2 := GetConns_eq env r w serviceName opts
  simp only [targetOf] at h1 h2
  refine ⟨by rw [h1.2.1]; rfl, by rw [h1.2.1, h2.2.1], h1.1, h2.1, ?_, ?_, ?_, ?_⟩
  all_goals
    rw [h2.2.2]
    try rw [h1.2.2]
    cases env.dialContext w (r.schema ++ ":///" ++ serviceName) (r.dialOptions ++ opts) <;>
      simp [eq_comm]

/-! ## Uniqueness of the service key -/

/-- C8, the claim as stated fails: the instances `("a/b", "c", 80)` and
`("a", "b/c", 80)` get the same key although service name and host differ. -/
theorem serviceKey_collision :
    serviceKeyOf "a/b" "c" 80 = serviceKeyOf "a" "b/c" 80 ∧
      ("a/b" : String) ≠ "a" ∧ ("c" : String) ≠ "b/c" := by
  decide

/-- C8, amended: equal keys have equal ports and equal `serviceName + "/" + host`
parts; when neither host holds a `/`, or neither service name holds a `/`, the
service names and the hosts are equal as well. -/
theorem serviceKey_unique (sn1 h1 sn2 h2 : String) (p1 p2 : Int)
    (hkey : serviceKeyOf sn1 h1 p1 = serviceKeyOf sn2 h2 p2) :
    p1 = p2 ∧ sn1 ++ "/" ++ h1 = sn2 ++ "/" ++ h2 ∧
      ((('/' ∉ h1.toList ∧ '/' ∉ h2.toList) ∨ ('/' ∉ sn1.toList ∧ '/' ∉ sn2.toList)) →
        sn1 = sn2 ∧ h1 = h2) := by
  have hd := congrArg String.data hkey
  rw [serviceKeyOf_data, serviceKeyOf_data] at hd
  obtain ⟨hx, hp⟩ := split_at_last ':' _ _ _ _ (colon_not_mem_fmtD p1) (colon_not_mem_fmtD p2) hd
  refine ⟨fmtD_injective _ _ hp, ?_, ?_⟩
  · apply String.ext_iff.mpr
    simpa [String.data_append] using hx
  · intro hs
    rcases hs with ⟨a, b⟩ | ⟨a, b⟩
    · obtain ⟨u, v⟩ := split_at_last '/' _ _ _ _ a b hx
      exact ⟨String.ext_iff.mpr u, String.ext_iff.mpr v⟩
    · obtain ⟨u, v⟩ := split_at_first '/' _ _ _ _ a b hx
      exact ⟨String.ext_iff.mpr u, String.ext_iff.mpr v⟩

/-- Instance of C8 as amended: the key of `echo` at `127.0.0.1:9000` against itself. -/
theorem serviceKey_unique_witness :
    serviceKeyOf "echo" "127.0.0.1" 9000 = serviceKeyOf "echo" "127.0.0.1" 9000 ∧
      ((9000 : Int) = 9000 ∧ "echo" ++ "/" ++ "127.0.0.1" = "echo" ++ "/" ++ "127.0.0.1" ∧
        ((('/' ∉ "127.0.0.1".toList ∧ '/' ∉ "127.0.0.1".toList) ∨
          ('/' ∉ "echo".toList ∧ '/' ∉ "echo".toList)) → "echo" = "echo" ∧ "127.0.0.1" = "127.0.0.1")) :=
  ⟨rfl, serviceKey_unique "echo" "127.0.0.1" "echo" "127.0.0.1" 9000 9000 rfl⟩

/-! ## `AddOption` and `GetSelfConnTarget` -/

/-- C9: `AddOption` sets `dialOptions` to the former list followed by the new
options and changes no other field nor the world; `GetSelfConnTarget` changes
nothing and returns `schema + ":///" + serviceKey`. -/
theorem AddOption_GetSelfConnTarget_frame (r : SvcDiscoveryRegistryImpl) (w : World)
    (opts : List DialOption) :
    (AddOption r w opts).registry.dialOptions = r.dialOptions ++ opts ∧
    (AddOption r w opts).registry.client = r.client ∧
    (AddOption r w opts).registry.resolver = r.resolver ∧
    (AddOption r w opts).registry.schema = r.schema ∧
    (AddOption r w opts).registry.serviceKey = r.serviceKey ∧
    (AddOption r w opts).registry.endpointMgr = r.endpointMgr ∧
    (AddOption r w opts).registry.leaseID = r.leaseID ∧
    (AddOption r w opts).world = w ∧
    (GetSelfConnTarget r w).registry = r ∧
    (GetSelfConnTarget r w).world = w ∧
    (GetSelfConnTarget r w).result = r.schema ++ ":///" ++ r.serviceKey :=
  ⟨rfl, rfl, rfl, rfl, rfl, rfl, rfl, rfl, rfl, rfl, rfl⟩

/-! ## `Register` twice -/

/-- C10: when two `Register` calls on one registry both return nil, with no
`Register` or `UnRegister` between them, the second makes its own `NewManager`,
`Grant`, `AddEndpoint` and `KeepAlive` calls (a second lease, no delete of the
first key) and sets `serviceKey` and `leaseID` to its own key and lease.  A
following `UnRegister` makes one call, the delete of the second key, and when
the two keys differ the first key is still in the store, with the address and
the lease of the first call, before and after that `UnRegister`. -/
theorem Register_twice_overwrites (env : Env) (r : SvcDiscoveryRegistryImpl) (w : World)
    (serviceName1 host1 : String) (port1 : Int) (opts1 : List DialOption)
    (serviceName2 host2 : String) (port2 : Int) (opts2 : List DialOption)
    (ops1 ops2 : List Op) (s1 s2 : SvcDiscoveryRegistryImpl × World)
    (hok1 : (Register env r w serviceName1 host1 port1 opts1).result = Outcome.ok ())
    (hops1 : ops1.all (fun op => !op.isRegister && !op.isUnRegister) = true)
    (hs1 : s1 = run env (Register env r w serviceName1 host1 port1 opts1).state ops1)
    (hok2 : (Register env s1.1 s1.2 serviceName2 host2 port2 opts2).result = Outcome.ok ())
    (hops2 : ops2.all (fun op => !op.isRegister && !op.isUnRegister) = true)
    (hs2 : s2 = run env (Register env s1.1 s1.2 serviceName2 host2 port2 opts2).state ops2) :
    ∃ client em2 lease1 lease2,
      (Register env r w serviceName1 host1 port1 opts1).registry.leaseID = lease1 ∧
      env.grant (s1.2.log (Call.NewManager (some client) serviceName2)) client 5
        = Except.ok lease2 ∧
      (Register env s1.1 s1.2 serviceName2 host2 port2 opts2).world.calls = s1.2.calls ++
        [Call.NewManager (some client) serviceName2, Call.Grant client 5,
         Call.AddEndpoint em2 (serviceName2 ++ "/" ++ host2 ++ ":" ++ fmtD port2)
           ⟨host2 ++ ":" ++ fmtD port2⟩ lease2,
         Call.KeepAlive client lease2] ∧
      s2.1.serviceKey = serviceName2 ++ "/" ++ host2 ++ ":" ++ fmtD port2 ∧
      s2.1.leaseID = lease2 ∧
      (UnRegister env s2.1 s2.2).world.calls = s2.2.calls ++
        [Call.DeleteEndpoint em2 (serviceName2 ++ "/" ++ host2 ++ ":" ++ fmtD port2)] ∧
      (serviceName1 ++ "/" ++ host1 ++ ":" ++ fmtD port1 ≠
          serviceName2 ++ "/" ++ host2 ++ ":" ++ fmtD port2 →
        s2.2.store.get (serviceName1 ++ "/" ++ host1 ++ ":" ++ fmtD port1) =
          some ⟨⟨host1 ++ ":" ++ fmtD port1⟩, lease1⟩ ∧
        (UnRegister env s2.1 s2.2).world.store.get
            (serviceName1 ++ "/" ++ host1 ++ ":" ++ fmtD port1) =
          some ⟨⟨host1 ++ ":" ++ fmtD port1⟩, lease1⟩) := by
  obtain ⟨c1, em1, lease1, _, _, _, hr1, _, hst1⟩ :=
    Register_ok_inv env r w serviceName1 host1 port1 opts1 hok1
  obtain ⟨c2, em2, lease2, hc2, _, hg2, hr2, hcalls2, hst2⟩ :=
    Register_ok_inv env s1.1 s1.2 serviceName2 host2 port2 opts2 hok2
  have hstore1 : s1.2.store =
      w.store.put (serviceKeyOf serviceName1 host1 port1) ⟨⟨addrOf host1 port1⟩, lease1⟩ := by
    rw [hs1, run_store env ops1 _ hops1]
    exact hst1
  have ht2 := run_tracked env ops2
    (Register env s1.1 s1.2 serviceName2 host2 port2 opts2).state (all_not_register ops2 hops2)
  rw [← hs2] at ht2
  have hstore2 : s2.2.store =
      s1.2.store.put (serviceKeyOf serviceName2 host2 port2) ⟨⟨addrOf host2 port2⟩, lease2⟩ := by
    rw [hs2, run_store env ops2 _ hops2]
    exact hst2
  have hkey : s2.1.serviceKey = serviceKeyOf serviceName2 host2 port2 := by
    rw [ht2.2.1]; simp [Ret.state, hr2]
  have hem : s2.1.endpointMgr = some em2 := by
    rw [ht2.2.2.1]; simp [Ret.state, hr2]
  have hlease : s2.1.leaseID = lease2 := by
    rw [ht2.2.2.2.1]; simp [Ret.state, hr2]
  have hu := UnRegister_some env s2.1 s2.2 em2 hem
  rw [hkey] at hu
  rw [hc2] at hg2
  refine ⟨c2, em2, lease1, lease2, by rw [hr1], hg2, hcalls2, hkey, hlease, hu.2.1, ?_⟩
  intro hne
  have hne' : serviceKeyOf serviceName1 host1 port1 ≠ serviceKeyOf serviceName2 host2 port2 := hne
  have hget : s2.2.store.get (serviceKeyOf serviceName1 host1 port1) =
      some ⟨⟨addrOf host1 port1⟩, lease1⟩ := by
    rw [hstore2, Store.get_put_of_ne _ _ _ _ hne', hstore1]
    exact Store.get_put_self _ _ _
  refine ⟨hget, ?_⟩
  have hst := hu.2.2.2
  show (UnRegister env s2.1 s2.2).world.store.get (serviceKeyOf serviceName1 host1 port1) = _
  rw [hst]
  cases env.deleteEndpoint s2.2 em2 (serviceKeyOf serviceName2 host2 port2) with
  | some e => exact hget
  | none =>
    show (s2.2.store.delete _).get _ = _
    rw [Store.get_delete_of_ne _ _ _ hne']
    exact hget

/-- Instance of C10: `echo` registered at port 9000 and then at port 9001 on the
same registry. -/
theorem Register_twice_overwrites_witness :
    (Register envUp openedRegistry openedWorld "echo" "127.0.0.1" 9000 []).result
      = Outcome.ok () ∧
    (Register envUp registeredState.1 registeredState.2 "echo" "127.0.0.1" 9001 []).result
      = Outcome.ok () ∧
    ∃ client em2 lease1 lease2,
      (Register envUp openedRegistry openedWorld "echo" "127.0.0.1" 9000 []).registry.leaseID
        = lease1 ∧
      envUp.grant (registeredState.2.log (Call.NewManager (some client) "echo")) client 5
        = Except.ok lease2 ∧
      (Register envUp registeredState.1 registeredState.2 "echo" "127.0.0.1" 9001 []).world.calls =
        registeredState.2.calls ++
        [Call.NewManager (some client) "echo", Call.Grant client 5,
         Call.AddEndpoint em2 ("echo" ++ "/" ++ "127.0.0.1" ++ ":" ++ fmtD 9001)
           ⟨"127.0.0.1" ++ ":" ++ fmtD 9001⟩ lease2,
         Call.KeepAlive client lease2] ∧
      reRegisteredState.1.serviceKey = "echo" ++ "/" ++ "127.0.0.1" ++ ":" ++ fmtD 9001 ∧
      reRegisteredState.1.leaseID = lease2 ∧
      (UnRegister envUp reRegisteredState.1 reRegisteredState.2).world.calls =
        reRegisteredState.2.calls ++
        [Call.DeleteEndpoint em2 ("echo" ++ "/" ++ "127.0.0.1" ++ ":" ++ fmtD 9001)] ∧
      ("echo" ++ "/" ++ "127.0.0.1" ++ ":" ++ fmtD 9000 ≠
          "echo" ++ "/" ++ "127.0.0.1" ++ ":" ++ fmtD 9001 →
        reRegisteredState.2.store.get ("echo" ++ "/" ++ "127.0.0.1" ++ ":" ++ fmtD 9000) =
          some ⟨⟨"127.0.0.1" ++ ":" ++ fmtD 9000⟩, lease1⟩ ∧
        (UnRegister envUp reRegisteredState.1 reRegisteredState.2).world.store.get
            ("echo" ++ "/" ++ "127.0.0.1" ++ ":" ++ fmtD 9000) =
          some ⟨⟨"127.0.0.1" ++ ":" ++ fmtD 9000⟩, lease1⟩) :=
  ⟨by decide, by decide,
    Register_twice_overwrites envUp openedRegistry openedWorld
      "echo" "127.0.0.1" 9000 [] "echo" "127.0.0.1" 9001 []
      [Op.GetConn "echo" [], Op.AddOption [⟨7⟩]] [Op.GetConns "echo" []]
      registeredState reRegisteredState
      (by decide) (by decide) rfl (by decide) (by decide) rfl⟩

/-- The run used for C10 ends with the first key still stored: evaluation of
the second registration and the `UnRegister` that follows it. -/
theorem reRegistered_example :
    reRegisteredState.1.serviceKey = "echo/127.0.0.1:9001" ∧
    (UnRegister envUp reRegisteredState.1 reRegisteredState.2).result = Outcome.ok () ∧
    (UnRegister envUp reRegisteredState.1 reRegisteredState.2).world.store =
      ⟨[("echo/127.0.0.1:9000", ⟨⟨"127.0.0.1:9000"⟩, 3⟩)]⟩ := by
  decide

end Discovery
